import Mathlib

/-!
Verification of the flame profiler preload controller (preload.js) and the
profile loader (lib/index.js) against their natural-language specification.
The JavaScript code is shallowly embedded: the module-level running flags
become an explicit `Flags` state, the external effects of one stop event
(the timestamp taken by `new Date()` and whether each stop-encode-write
section completes without throwing) become an `Env` record, and each
function of the source becomes a pure Lean function threading that state.
-/

namespace Flame

/-- The two module-level running flags of the preload script,
`isCpuProfilerRunning` and `isHeapProfilerRunning`. -/
structure Flags where
  cpu : Bool
  heap : Bool
deriving DecidableEq

/-- External effects of one stop event: `timestamp` is the value of
`new Date().toISOString().replace(...)` computed once at the top of the stop
call; `cpuOk` (resp. `heapOk`) is true when the cpu (resp. heap)
stop-encode-write section runs to completion without throwing. -/
structure Env where
  timestamp : String
  cpuOk : Bool
  heapOk : Bool
deriving DecidableEq

/-- Filename built for the cpu profile: `cpu-profile-<timestamp>.pb`. -/
def cpuFilename (ts : String) : String := "cpu-profile-" ++ ts ++ ".pb"

/-- Filename built for the heap profile: `heap-profile-<timestamp>.pb`. -/
def heapFilename (ts : String) : String := "heap-profile-" ++ ts ++ ".pb"

/-- Observable outcome of one stop call: `cpuWritten` / `heapWritten` are the
profile files actually written to disk by the cpu / heap section, `ret` is the
JavaScript return value (`none` models `null`), and `rendered` lists the
html / markdown artifact paths whose generation was attempted. -/
structure StopOut where
  cpuWritten : List String
  heapWritten : List String
  ret : Option (List String)
  rendered : List String
deriving DecidableEq

/-- All profile files written to disk by one stop call, in order. -/
def StopOut.written (o : StopOut) : List String := o.cpuWritten ++ o.heapWritten

/-- `stopProfilerQuick` (preload.js lines 316-360): early-returns null when
neither profiler is running; otherwise one shared try block stops, encodes and
writes the cpu profile (when running) and then the heap profile (when
running); a throw anywhere lands in the single catch, which forces both flags
to false and returns null. A file is on disk exactly when its section
completed before any throw. -/
def stopProfilerQuick (e : Env) (s : Flags) : Flags × StopOut :=
  if !s.cpu && !s.heap then
    (s, ⟨[], [], none, []⟩)
  else
    if s.cpu && !e.cpuOk then
      -- the cpu section threw: catch clears both flags, returns null
      (⟨false, false⟩, ⟨[], [], none, []⟩)
    else
      let cpuFiles := if s.cpu then [cpuFilename e.timestamp] else []
      if s.heap && !e.heapOk then
        -- the heap section threw: the cpu file (if any) is already on disk
        (⟨false, false⟩, ⟨cpuFiles, [], none, []⟩)
      else
        let heapFiles := if s.heap then [heapFilename e.timestamp] else []
        (⟨false, false⟩, ⟨cpuFiles, heapFiles, some (cpuFiles ++ heapFiles), []⟩)

/-- Rendering artifacts attempted for one written profile when `generateHtml`
is set: the sibling `.html` and `.md` files. Mirrors
`filename.replace(".pb", ".html")` (the filename contains a single `.pb`
occurrence, so replace-first and replace-all agree). -/
def renderedFor (filename : String) : List String :=
  [filename.replace (".pb") (".html"), filename.replace (".pb") (".md")]

/-- `stopProfilerAndSave` (preload.js lines 362-450): same control flow as
`stopProfilerQuick` — one shared try block, cpu section then heap section,
one catch clearing both flags and returning null — plus, per written profile,
when `generateHtml` is set, flamegraph and markdown generation, each inside
its own inner try/catch so rendering failures never escape. -/
def stopProfilerAndSave (generateHtml : Bool) (e : Env) (s : Flags) : Flags × StopOut :=
  if !s.cpu && !s.heap then
    (s, ⟨[], [], none, []⟩)
  else
    if s.cpu && !e.cpuOk then
      (⟨false, false⟩, ⟨[], [], none, []⟩)
    else
      let cpuFiles := if s.cpu then [cpuFilename e.timestamp] else []
      let cpuRendered := if s.cpu && generateHtml then renderedFor (cpuFilename e.timestamp) else []
      if s.heap && !e.heapOk then
        (⟨false, false⟩, ⟨cpuFiles, [], none, cpuRendered⟩)
      else
        let heapFiles := if s.heap then [heapFilename e.timestamp] else []
        let heapRendered := if s.heap && generateHtml then renderedFor (heapFilename e.timestamp) else []
        (⟨false, false⟩, ⟨cpuFiles, heapFiles, some (cpuFiles ++ heapFiles), cpuRendered ++ heapRendered⟩)

/-- Heap profiler start parameters passed to `heapProfiler.start`. -/
structure HeapStartParams where
  intervalBytes : Nat
  stackDepth : Nat
deriving DecidableEq

/-- What `toggleProfiler` did: started both profilers (recording whether the
cpu profiler received the sourcemap-aware symbolizer, and the heap start
parameters), or ran the stop path. -/
inductive ToggleOut where
  | started (cpuUsesSourceMapper : Bool) (heapParams : HeapStartParams)
  | stopped (o : StopOut)
deriving DecidableEq

/-- `toggleProfiler` (preload.js lines 485-501): if neither profiler is
running, start the cpu profiler (with `\x7b sourceMapper \x7d` when a mapper is
available) and the heap profiler with `512 * 1024` interval bytes and stack
depth `64`, and set both flags; otherwise call `stopProfilerAndSave(false)`.
The `generateHtml=false` stop path contains no await, so the whole call
completes synchronously before `toggleProfiler` returns. -/
def toggleProfiler (sourceMapperAvailable : Bool) (e : Env) (s : Flags) : Flags × ToggleOut :=
  if !s.cpu && !s.heap then
    (⟨true, true⟩, ToggleOut.started sourceMapperAvailable ⟨512 * 1024, 64⟩)
  else
    let r := stopProfilerAndSave false e s
    (r.1, ToggleOut.stopped r.2)

/-- The four exit triggers installed under autoStart (preload.js lines
551-604): the `beforeExit` listener, the patched `process.exit`, and the
`SIGINT` / `SIGTERM` listeners. -/
inductive ExitTrigger where
  | beforeExit
  | exitCall
  | sigint
  | sigterm
deriving DecidableEq

/-- State visible to the exit handlers: the running flags, the single-fire
latch `exitHandlerCalled`, and a count of how many times the stop-and-flush
sequence has executed. -/
structure ExitState where
  flags : Flags
  exitHandlerCalled : Bool
  stopSequences : Nat
deriving DecidableEq

/-- One exit trigger firing. Every handler guards with
`(isCpuProfilerRunning || isHeapProfilerRunning) && !exitHandlerCalled`,
sets the latch, and runs the stop sequence: `stopProfilerAndSave(true)` on
the two graceful paths (`beforeExit`, patched `process.exit`),
`stopProfilerQuick()` on the two signal paths. The latch is set before any
suspension point inside the stop sequence, so a later trigger always sees it. -/
def exitStep (s : ExitState) (te : ExitTrigger × Env) : ExitState :=
  if (s.flags.cpu || s.flags.heap) && !s.exitHandlerCalled then
    let flags' :=
      match te.1 with
      | ExitTrigger.beforeExit => (stopProfilerAndSave true te.2 s.flags).1
      | ExitTrigger.exitCall => (stopProfilerAndSave true te.2 s.flags).1
      | ExitTrigger.sigint => (stopProfilerQuick te.2 s.flags).1
      | ExitTrigger.sigterm => (stopProfilerQuick te.2 s.flags).1
    ⟨flags', true, s.stopSequences + 1⟩
  else s

/-- An interleaving of exit triggers firing in sequence. -/
def runExitTriggers (s : ExitState) (tes : List (ExitTrigger × Env)) : ExitState :=
  tes.foldl exitStep s

/-- Counters observed along a sequence of `toggleProfiler` calls: profile
files written per sub-profiler, completed start-then-stop pairs per
sub-profiler (a pair completes when a toggle moves that running flag from
true to false), and the number of stop events. -/
structure ToggleTrace where
  flags : Flags
  cpuFiles : Nat
  heapFiles : Nat
  cpuPairs : Nat
  heapPairs : Nat
  stopEvents : Nat
deriving DecidableEq

/-- One `toggleProfiler` call, observed through `ToggleTrace`. -/
def toggleStep (sm : Bool) (t : ToggleTrace) (e : Env) : ToggleTrace :=
  match toggleProfiler sm e t.flags with
  | (s', ToggleOut.started _ _) =>
      { t with flags := s' }
  | (s', ToggleOut.stopped o) =>
      { flags := s'
        cpuFiles := t.cpuFiles + o.cpuWritten.length
        heapFiles := t.heapFiles + o.heapWritten.length
        cpuPairs := t.cpuPairs + (if t.flags.cpu && !s'.cpu then 1 else 0)
        heapPairs := t.heapPairs + (if t.flags.heap && !s'.heap then 1 else 0)
        stopEvents := t.stopEvents + 1 }

/-- A finite sequence of `toggleProfiler` calls, each with its own external
effects (its own timestamp and failure outcomes). -/
def runToggles (sm : Bool) (t : ToggleTrace) (es : List Env) : ToggleTrace :=
  es.foldl (toggleStep sm) t

/-- The idle state: no profiler running, nothing written yet. -/
def initialTrace : ToggleTrace := ⟨⟨false, false⟩, 0, 0, 0, 0, 0⟩

/-- JavaScript regex whitespace on the ASCII range (space, tab, newline,
carriage return, vertical tab, form feed). -/
def isJsWs (c : Char) : Bool :=
  c = ' ' || c = '\t' || c = '\n' || c = '\r' || c = '\x0b' || c = '\x0c'

/-- First character of the identifier class of the source regexes,
`[a-zA-Z_$]`. -/
def isIdentStart (c : Char) : Bool := c.isAlpha || c = '_' || c = '$'

/-- Continuation character of the identifier class, `[a-zA-Z0-9_$]`. -/
def isIdentChar (c : Char) : Bool := isIdentStart c || c.isDigit

/-- `\s+`: at least one whitespace character, returning what follows. -/
def skipWs1 : List Char → Option (List Char)
  | c :: cs => if isJsWs c then some (cs.dropWhile isJsWs) else none
  | [] => none

/-- The greedy identifier capture `[a-zA-Z_$][a-zA-Z0-9_$]*`: the maximal
identifier run at the head of the input. A backtracked (shortened) capture
can never make the source patterns succeed, because the character following
the run is never `=`, `:`, whitespace or `(` inside the run. -/
def takeIdent : List Char → Option (String × List Char)
  | c :: cs =>
    if isIdentStart c then
      some (String.mk (c :: cs.takeWhile isIdentChar), cs.dropWhile isIdentChar)
    else none
  | [] => none

/-- Match a literal character sequence at the head of the input. -/
def dropLit : List Char → List Char → Option (List Char)
  | [], cs => some cs
  | l :: ls, c :: cs => if c = l then dropLit ls cs else none
  | _ :: _, [] => none

/-- Try `function\s+([a-zA-Z_$][a-zA-Z0-9_$]*)\s*\(` at the head of the
input. The optional `(?:async\s+)?` alternative of the source regex never
changes the captured group, since the capture always follows the same
`function` keyword occurrence. -/
def funcDeclAt (cs : List Char) : Option String := do
  let r ← dropLit ("function".data) cs
  let r ← skipWs1 r
  let (name, r) ← takeIdent r
  match r.dropWhile isJsWs with
  | '(' :: _ => some name
  | _ => none

/-- Leftmost unanchored search for the function-declaration pattern, the
first regex of `extractFunctionName`. -/
def scanFuncDecl : List Char → Option String
  | [] => none
  | c :: cs =>
    match funcDeclAt (c :: cs) with
    | some n => some n
    | none => scanFuncDecl cs

/-- Try `([a-zA-Z_$][a-zA-Z0-9_$]*)\s*[=:]\s*(?:async\s*)?\(` at the head of
the input. When `async` matches but no `(` follows, the backtracked
prefix-free alternative also fails (the next character is `a`, not `(`), so
no backtracking is needed. -/
def arrowAt (cs : List Char) : Option String := do
  let (name, r) ← takeIdent cs
  match r.dropWhile isJsWs with
  | c :: r1 =>
    if c = '=' || c = ':' then
      let r2 := r1.dropWhile isJsWs
      let r3 :=
        match dropLit ("async".data) r2 with
        | some ra => ra.dropWhile isJsWs
        | none => r2
      match r3 with
      | '(' :: _ => some name
      | _ => none
    else none
  | [] => none

/-- Leftmost unanchored search for the arrow / property pattern, the second
regex of `extractFunctionName`. -/
def scanArrow : List Char → Option String
  | [] => none
  | c :: cs =>
    match arrowAt (c :: cs) with
    | some n => some n
    | none => scanArrow cs

/-- The anchored method-shorthand pattern
`^\s*(?:async\s+)?([a-zA-Z_$][a-zA-Z0-9_$]*)\s*\(`, the third regex of
`extractFunctionName`, with the regex backtracking on the optional `async`
prefix (so the line `async (` captures `async`). -/
def methodAt (cs : List Char) : Option String :=
  let r := cs.dropWhile isJsWs
  let tryIdent : List Char → Option String := fun r0 =>
    match takeIdent r0 with
    | some (name, rest) =>
      match rest.dropWhile isJsWs with
      | '(' :: _ => some name
      | _ => none
    | none => none
  match dropLit ("async".data) r with
  | some ra =>
    match skipWs1 ra with
    | some rb =>
      match tryIdent rb with
      | some n => some n
      | none => tryIdent r
    | none => tryIdent r
  | none => tryIdent r

/-- `extractFunctionName` (preload.js lines 179-191): best-effort extraction
of a function name from one source line. An empty line is falsy and yields
null; otherwise the three patterns are tried in order: function declaration,
arrow or property assignment, method shorthand. -/
def extractFunctionName (sourceLine : String) : Option String :=
  if sourceLine = "" then none
  else
    match scanFuncDecl sourceLine.data with
    | some n => some n
    | none =>
      match scanArrow sourceLine.data with
      | some n => some n
      | none => methodAt sourceLine.data

/-- Lookup bias passed to `originalPositionFor`: the consumer default
(greatest lower bound) or the explicit `LEAST_UPPER_BOUND` retry. -/
inductive Bias where
  | greatestLowerBound
  | leastUpperBound
deriving DecidableEq

/-- The object returned by `consumer.originalPositionFor`: each field is
`none` when the consumer reports null. -/
structure OrigPos where
  source : Option String
  line : Option Int
  column : Option Int
  name : Option String

/-- One entry of the mapper's `infoMap`: the directory holding the map file
and the sourcemap consumer, modelled by its two query functions (the
consumer is part of the external `source-map` package). `originalPositionFor`
takes the generated line, the generated column and the bias. -/
structure MapEntry where
  mapFileDir : String
  originalPositionFor : Option Int → Int → Bias → OrigPos
  sourceContentFor : String → Option String

/-- The external `path` module operations used by `mappingInfo`. -/
structure PathOps where
  normalize : String → String
  resolve : String → String → String

/-- A profiler stack-frame location. Input locations carry concrete numbers;
the result of `mappingInfo` may leave `line` or `column` undefined (`none`). -/
structure Loc where
  file : String
  line : Option Int
  column : Option Int
  name : Option String
deriving DecidableEq

/-- JavaScript truthiness of an optional string: null and the empty string
are falsy. -/
def truthyStr : Option String → Bool
  | none => false
  | some s => !(s = "")

/-- JavaScript truthiness of an optional number: null and zero are falsy. -/
def truthyInt : Option Int → Bool
  | none => false
  | some n => !(n = 0)

/-- `a || b` on optional strings under JavaScript truthiness. -/
def jsOrName (a b : Option String) : Option String := if truthyStr a then a else b

/-- `pos.line || undefined`: a null or zero line becomes undefined. -/
def jsOrLine (a : Option Int) : Option Int := if truthyInt a then a else none

/-- The generated column passed to the consumer (preload.js lines 206-209):
`location.column > 0 ? location.column - 1 : 0`, with an undefined column
comparing falsy. -/
def genColOf (loc : Loc) : Int :=
  match loc.column with
  | some c => if c > 0 then c - 1 else 0
  | none => 0

/-- Array indexing `lines[i]` with a JavaScript index that may be out of
range (undefined becomes `none`). -/
def lineAt (lines : List String) (i : Int) : Option String :=
  if i < 0 then none else lines[i.toNat]?

/-- The `resolvedName` computation of `mappingInfo` (preload.js lines
230-253): start from `pos.name || location.name`; when the position has no
truthy name but a truthy source and line, fetch the original source content,
split it into lines, and run `extractFunctionName` on the relevant line; a
truthy extracted name wins. The content cache of the source is a pure
memoisation and is modelled by calling `sourceContentFor` directly; the
surrounding try/catch is unreachable in this total model. -/
def resolveName (entry : MapEntry) (loc : Loc) (pos : OrigPos) : Option String :=
  let resolvedName := jsOrName pos.name loc.name
  if !(truthyStr pos.name) && truthyStr pos.source && truthyInt pos.line then
    match pos.source, pos.line with
    | some src, some ln =>
      match entry.sourceContentFor src with
      | some content =>
        let lines := content.splitOn ("\n")
        match lineAt lines (ln - 1) with
        | some lstr =>
          if !(lstr = "") then
            match extractFunctionName lstr with
            | some n => if !(n = "") then some n else resolvedName
            | none => resolvedName
          else resolvedName
        | none => resolvedName
      | none => resolvedName
    | _, _ => resolvedName
  else resolvedName

/-- The overridden `mapper.mappingInfo` (preload.js lines 199-261): normalize
the input file and look it up in the info map; with no entry, return the
location unchanged. Otherwise query the consumer at the generated position
with the default bias; when that yields no source, retry the same position
with `LEAST_UPPER_BOUND`. When both lookups yield no source, return the
location unchanged; otherwise build the resolved location from the
successful position. The embedding is a total function: resolution never
throws. -/
def mappingInfo (pops : PathOps) (getMappingInfo : String → Option MapEntry) (loc : Loc) : Loc :=
  let inputPath := pops.normalize loc.file
  match getMappingInfo inputPath with
  | none => loc
  | some entry =>
    let firstPos := entry.originalPositionFor loc.line (genColOf loc) Bias.greatestLowerBound
    let pos :=
      if firstPos.source = none then
        entry.originalPositionFor loc.line (genColOf loc) Bias.leastUpperBound
      else firstPos
    match pos.source with
    | none => loc
    | some src =>
      { file := pops.resolve entry.mapFileDir src
        line := jsOrLine pos.line
        column := Option.map (fun c => c + 1) pos.column
        name := resolveName entry loc pos }

/-- The gzip magic check of `parseProfile` (lib/index.js line 49):
`data[0] === 0x1f && data[1] === 0x8b`, false on inputs shorter than two
bytes because an undefined element never strictly equals a number. -/
def hasGzipMagic (data : List Nat) : Bool :=
  match data with
  | b0 :: b1 :: _ => b0 == 0x1f && b1 == 0x8b
  | _ => false

/-- `parseProfile` (lib/index.js lines 41-56): throw when the file does not
exist; read its bytes; when the gzip magic bytes are present, gunzip before
decoding; otherwise decode directly. The external `zlib.gunzipSync` and
`Profile.decode` collaborators are parameters of the embedding. -/
def parseProfile (α : Type) (fileExists : Bool) (gunzipSync : List Nat → List Nat)
    (decode : List Nat → α) (data : List Nat) : Except String α :=
  if !fileExists then Except.error ("Profile file not found")
  else if hasGzipMagic data then Except.ok (decode (gunzipSync data))
  else Except.ok (decode data)

/-- `parseInt(value, 10)`: skip leading whitespace, read an optional sign and
the longest digit run; `none` models NaN. -/
def jsParseInt10 (s : String) : Option Int :=
  let digitsVal : List Char → Option Nat := fun cs =>
    let ds := cs.takeWhile Char.isDigit
    if ds.isEmpty then none
    else some (ds.foldl (fun a c => a * 10 + (c.toNat - ('0').toNat)) 0)
  match s.data.dropWhile isJsWs with
  | '-' :: rest => (digitsVal rest).map (fun n => -(n : Int))
  | '+' :: rest => (digitsVal rest).map (fun n => (n : Int))
  | cs => (digitsVal cs).map (fun n => (n : Int))

/-- What the auto-start dispatch does with the configured delay value. -/
inductive DelayAction where
  | callNow
  | deferTick
  | deferMs (ms : Int)
  | invalidCallNow
deriving DecidableEq

/-- `process.env.FLAME_DELAY || 'until-started'`: an absent or empty value
falls back to the default. -/
def delayValueOf (flameDelay : Option String) : String :=
  match flameDelay with
  | some s => if s = "" then ("until-started") else s
  | none => "until-started"

/-- The auto-start delay dispatch (preload.js lines 529-549): `none` invokes
`startProfiling()` during preload evaluation; `until-started` defers it past
one `setImmediate` plus `setTimeout(0)` round; a parseable non-negative
number defers by that many milliseconds; anything else logs an error and
invokes `startProfiling()` immediately. Exactly one `startProfiling`
invocation is scheduled in every branch. -/
def delayAction (delayValue : String) : DelayAction :=
  if delayValue = "none" then DelayAction.callNow
  else if delayValue = "until-started" then DelayAction.deferTick
  else
    match jsParseInt10 delayValue with
    | some n => if 0 ≤ n then DelayAction.deferMs n else DelayAction.invalidCallNow
    | none => DelayAction.invalidCallNow

/-- Whether the `toggleProfiler()` call inside the async `startProfiling`
runs synchronously during the call: the body awaits `sourceMapperPromise`
when one exists, deferring the toggle to a later microtask; with no promise,
no await executes and the toggle completes before `startProfiling` returns. -/
def startProfilingTogglesSync (hasSourceMapperPromise : Bool) : Bool :=
  !hasSourceMapperPromise

/-- The running flags at the end of the preload script's synchronous
evaluation under autoStart, i.e. before the first line of the target
program's own code runs: only a `callNow` or `invalidCallNow` dispatch with
a synchronously completing `startProfiling` has toggled by then. -/
def autoStartFlagsBeforeUserCode (delayValue : String) (hasSmp : Bool) (sm : Bool)
    (e : Env) (s : Flags) : Flags :=
  match delayAction delayValue with
  | DelayAction.callNow =>
      if startProfilingTogglesSync hasSmp then (toggleProfiler sm e s).1 else s
  | DelayAction.invalidCallNow =>
      if startProfilingTogglesSync hasSmp then (toggleProfiler sm e s).1 else s
  | DelayAction.deferTick => s
  | DelayAction.deferMs _ => s

/-- Invariant carried along a sequence of toggles: the two running flags
agree, per-sub-profiler file counts never exceed completed pairs, and each
stop event completes one pair per sub-profiler. -/
def traceInv (t : ToggleTrace) : Prop :=
  t.flags.cpu = t.flags.heap ∧
  t.cpuFiles ≤ t.cpuPairs ∧ t.heapFiles ≤ t.heapPairs ∧
  t.cpuPairs = t.stopEvents ∧ t.heapPairs = t.stopEvents

/-- On failure-free runs the file counts match the pair counts exactly. -/
def traceExact (t : ToggleTrace) : Prop :=
  t.cpuFiles = t.cpuPairs ∧ t.heapFiles = t.heapPairs

/-- A failure-free stop environment used in concrete instantiations. -/
def envOk : Env := ⟨"2025-01-01T00-00-00-000Z", true, true⟩

/-- A stop environment in which the cpu stop-encode-write section throws. -/
def envCpuFail : Env := ⟨"2025-01-01T00-00-00-000Z", false, true⟩

/-- Concrete path operations used in concrete instantiations. -/
def pathOpsSample : PathOps := ⟨fun s => s, fun d f => d ++ "/" ++ f⟩

/-- A concrete stack-frame location used in concrete instantiations. -/
def locSample : Loc := ⟨"dist/app.js", some 10, some 5, none⟩

/-- A concrete map entry whose consumer has no mapping at the exact column
but a mapping under the `LEAST_UPPER_BOUND` retry. -/
def entrySample : MapEntry :=
  ⟨"src",
   fun _ _ b =>
     match b with
     | Bias.greatestLowerBound => ⟨none, none, none, none⟩
     | Bias.leastUpperBound => ⟨some ("app.ts"), some 3, some 1, some ("main")⟩,
   fun _ => none⟩

/-- A concrete info-map lookup holding only `entrySample`. -/
def getInfoSample : String → Option MapEntry :=
  fun f => if f = "dist/app.js" then some entrySample else none

/-- C10: after any `toggleProfiler`, any `stopProfilerQuick` and any
completed `stopProfilerAndSave` — error paths included — the cpu running
flag equals the heap running flag: the two sub-profilers are started
together and are both stopped after any stop, so no post-operation state has
exactly one sub-profiler running. -/
theorem c10_flags_move_together (sm g : Bool) (e : Env) (s : Flags) :
    (toggleProfiler sm e s).1.cpu = (toggleProfiler sm e s).1.heap ∧
    (stopProfilerQuick e s).1.cpu = (stopProfilerQuick e s).1.heap ∧
    (stopProfilerAndSave g e s).1.cpu = (stopProfilerAndSave g e s).1.heap := by
  rcases s with ⟨cpu, heap⟩
  rcases e with ⟨ts, cok, hok⟩
  cases cpu <;> cases heap <;> cases cok <;> cases hok <;>
    simp [toggleProfiler, stopProfilerQuick, stopProfilerAndSave]

/-- C5: `toggleProfiler` branches exactly on the running flags: with neither
sub-profiler running it starts both (cpu with the sourcemap symbolizer
exactly when available, heap with intervalBytes 512*1024 and stackDepth 64)
and sets both flags; with either running it runs `stopProfilerAndSave
false`, whose rendering list is empty, and never starts; and a stop writes
at most one artifact per sub-profiler. -/
theorem c5_toggle_branching (sm g : Bool) (e : Env) (s : Flags) :
    (s.cpu = false → s.heap = false →
      toggleProfiler sm e s = (⟨true, true⟩, ToggleOut.started sm ⟨512 * 1024, 64⟩)) ∧
    (s.cpu = true ∨ s.heap = true →
      toggleProfiler sm e s =
        ((stopProfilerAndSave false e s).1, ToggleOut.stopped (stopProfilerAndSave false e s).2) ∧
      (stopProfilerAndSave false e s).2.rendered = [] ∧
      ∀ b p, (toggleProfiler sm e s).2 ≠ ToggleOut.started b p) ∧
    (stopProfilerAndSave g e s).2.cpuWritten.length ≤ 1 ∧
    (stopProfilerAndSave g e s).2.heapWritten.length ≤ 1 := by
  rcases s with ⟨cpu, heap⟩
  rcases e with ⟨ts, cok, hok⟩
  cases cpu <;> cases heap <;> cases cok <;> cases hok <;> cases g <;>
    simp [toggleProfiler, stopProfilerAndSave]

/-- Witness for C5 at concrete inputs: a toggle from idle starts both with
the documented heap parameters, and a manual stop renders nothing. -/
theorem c5_toggle_branching_witness :
    toggleProfiler false envOk ⟨false, false⟩
      = (⟨true, true⟩, ToggleOut.started false ⟨512 * 1024, 64⟩) ∧
    (stopProfilerAndSave false envOk ⟨true, true⟩).2.rendered = [] :=
  ⟨(c5_toggle_branching false false envOk ⟨false, false⟩).1 rfl rfl,
   ((c5_toggle_branching false false envOk ⟨true, true⟩).2.1 (Or.inl rfl)).2.1⟩

/-- C3: one stop event computes exactly one timestamp, and when both
profiles are written their filenames embed that identical timestamp, both in
`stopProfilerAndSave` and in `stopProfilerQuick`. -/
theorem c3_shared_timestamp (g : Bool) (e : Env) (s : Flags)
    (hc : s.cpu = true) (hh : s.heap = true)
    (hco : e.cpuOk = true) (hho : e.heapOk = true) :
    ∃ ts,
      (stopProfilerAndSave g e s).2.cpuWritten = [cpuFilename ts] ∧
      (stopProfilerAndSave g e s).2.heapWritten = [heapFilename ts] ∧
      (stopProfilerQuick e s).2.cpuWritten = [cpuFilename ts] ∧
      (stopProfilerQuick e s).2.heapWritten = [heapFilename ts] := by
  refine ⟨e.timestamp, ?_, ?_, ?_, ?_⟩ <;>
    rcases s with ⟨cpu, heap⟩ <;> rcases e with ⟨ts, cok, hok⟩ <;>
    simp_all [stopProfilerAndSave, stopProfilerQuick]

/-- Witness for C3 at a concrete failure-free stop of both profilers. -/
theorem c3_shared_timestamp_witness :
    ∃ ts,
      (stopProfilerAndSave true envOk ⟨true, true⟩).2.cpuWritten = [cpuFilename ts] ∧
      (stopProfilerAndSave true envOk ⟨true, true⟩).2.heapWritten = [heapFilename ts] ∧
      (stopProfilerQuick envOk ⟨true, true⟩).2.cpuWritten = [cpuFilename ts] ∧
      (stopProfilerQuick envOk ⟨true, true⟩).2.heapWritten = [heapFilename ts] :=
  c3_shared_timestamp true envOk ⟨true, true⟩ rfl rfl rfl rfl

/-- C1 is refuted at this input: with both sub-profilers running and the cpu
encode throwing, `stopProfilerAndSave` writes no heap profile and returns
null instead of the list of artifacts actually written — the shared catch
aborts the heap section. -/
theorem c1_counterexample :
    (stopProfilerAndSave false envCpuFail ⟨true, true⟩).2.heapWritten = [] ∧
    (stopProfilerAndSave false envCpuFail ⟨true, true⟩).2.ret = none := by
  constructor <;> rfl

/-- C1 amended: both sections sit in one shared try/catch. When the cpu
section throws, the catch clears both flags, nothing is written and the
method returns null — the heap profile is not stopped, encoded or written.
When the cpu section succeeds and the heap section throws, the cpu file is
already durable on disk but the method still returns null rather than the
list of artifacts written. -/
theorem c1_amended_shared_catch (g : Bool) (e : Env) (s : Flags)
    (hc : s.cpu = true) (hh : s.heap = true) :
    (e.cpuOk = false →
      stopProfilerAndSave g e s = (⟨false, false⟩, ⟨[], [], none, []⟩)) ∧
    (e.cpuOk = true → e.heapOk = false →
      (stopProfilerAndSave g e s).1 = ⟨false, false⟩ ∧
      (stopProfilerAndSave g e s).2.cpuWritten = [cpuFilename e.timestamp] ∧
      (stopProfilerAndSave g e s).2.heapWritten = [] ∧
      (stopProfilerAndSave g e s).2.ret = none) := by
  rcases s with ⟨cpu, heap⟩
  rcases e with ⟨ts, cok, hok⟩
  cases cpu <;> cases heap <;> cases cok <;> cases hok <;> cases g <;>
    simp_all [stopProfilerAndSave]

/-- Witness for the amended C1 at a concrete input with a cpu failure. -/
theorem c1_amended_shared_catch_witness :
    stopProfilerAndSave false envCpuFail ⟨true, true⟩
      = (⟨false, false⟩, ⟨[], [], none, []⟩) :=
  (c1_amended_shared_catch false envCpuFail ⟨true, true⟩ rfl rfl).1 rfl

/-- C7, evaluated at the spec's own inputs: a named function definition does
yield its identifier, but the control-flow line `if (x) \x7b` yields the name
`if` — the method-shorthand pattern matches it and the implementation has no
control-flow-keyword exclusion, unlike the helper recreated and asserted in
the repository's own test file. -/
theorem c7_extract_keyword_divergence :
    extractFunctionName ("function foo(a, b) \x7b") = some ("foo") ∧
    extractFunctionName ("if (x) \x7b") = some ("if") := by
  constructor <;> rfl

/-- C8: `parseProfile` detects the gzip magic bytes `0x1f 0x8b` and gunzips
before decoding, so loading a gzip-compressed profile yields the same decoded
structure as loading its uncompressed form, for every gunzip/decode
collaborator pair and every byte sequence whose uncompressed form does not
itself begin with the magic bytes. -/
theorem c8_gzip_transparent (α : Type) (gunzipSync : List Nat → List Nat)
    (decode : List Nat → α) (raw gz : List Nat)
    (hmagic : hasGzipMagic gz = true) (hgun : gunzipSync gz = raw)
    (hraw : hasGzipMagic raw = false) :
    parseProfile α true gunzipSync decode gz = Except.ok (decode raw) ∧
    parseProfile α true gunzipSync decode raw = Except.ok (decode raw) := by
  simp [parseProfile, hmagic, hgun, hraw]

/-- Witness for C8 at a concrete byte sequence and concrete collaborators. -/
theorem c8_gzip_transparent_witness :
    parseProfile (List Nat) true (fun l => l.drop 2) (fun l => l) [0x1f, 0x8b, 7]
      = Except.ok [7] ∧
    parseProfile (List Nat) true (fun l => l.drop 2) (fun l => l) [7]
      = Except.ok [7] :=
  c8_gzip_transparent (List Nat) (fun l => l.drop 2) (fun l => l) [7] [0x1f, 0x8b, 7]
    (by decide) rfl (by decide)

/-- C9: with autoStart and delay value `none` and no sourcemap index
configured (so sourcemap readiness is immediate), the dispatch selects the
immediate branch, `startProfiling` completes synchronously during preload
evaluation, and the capture state is running before the first line of the
target program's user code executes. -/
theorem c9_autostart_none_runs_before_user_code (sm : Bool) (e : Env) :
    autoStartFlagsBeforeUserCode ("none") false sm e ⟨false, false⟩ = ⟨true, true⟩ ∧
    delayAction ("none") = DelayAction.callNow := by
  constructor <;> rfl

-- Once the latch is set, an exit trigger changes nothing.
lemma exitStep_of_latched (s : ExitState) (te : ExitTrigger × Env)
    (h : s.exitHandlerCalled = true) : exitStep s te = s := by
  simp [exitStep, h]

-- Once the latch is set, any further interleaving of triggers changes nothing.
lemma runExitTriggers_of_latched (tes : List (ExitTrigger × Env)) (s : ExitState)
    (h : s.exitHandlerCalled = true) : runExitTriggers s tes = s := by
  induction tes generalizing s with
  | nil => rfl
  | cons te tes ih =>
      have h1 : runExitTriggers s (te :: tes) = runExitTriggers (exitStep s te) tes := rfl
      rw [h1, exitStep_of_latched s te h, ih s h]

/-- C2: under autoStart with the profilers running, for every interleaving of
the four exit triggers the stop-and-flush sequence executes exactly once:
the first trigger to fire sets `exitHandlerCalled` and runs the stop
sequence, and every later trigger skips it, leaving the state exactly as the
first trigger left it. -/
theorem c2_exit_latch_single_fire (flags : Flags)
    (h : flags.cpu = true ∨ flags.heap = true)
    (t0 : ExitTrigger) (e0 : Env) (tes : List (ExitTrigger × Env)) :
    (exitStep ⟨flags, false, 0⟩ (t0, e0)).exitHandlerCalled = true ∧
    (exitStep ⟨flags, false, 0⟩ (t0, e0)).stopSequences = 1 ∧
    runExitTriggers ⟨flags, false, 0⟩ ((t0, e0) :: tes) = exitStep ⟨flags, false, 0⟩ (t0, e0) ∧
    (runExitTriggers ⟨flags, false, 0⟩ ((t0, e0) :: tes)).stopSequences = 1 := by
  have hE : (exitStep ⟨flags, false, 0⟩ (t0, e0)).exitHandlerCalled = true ∧
      (exitStep ⟨flags, false, 0⟩ (t0, e0)).stopSequences = 1 := by
    rcases h with h | h <;> simp [exitStep, h]
  have hrun : runExitTriggers ⟨flags, false, 0⟩ ((t0, e0) :: tes)
      = exitStep ⟨flags, false, 0⟩ (t0, e0) := by
    have h1 : runExitTriggers ⟨flags, false, 0⟩ ((t0, e0) :: tes)
        = runExitTriggers (exitStep ⟨flags, false, 0⟩ (t0, e0)) tes := rfl
    rw [h1, runExitTriggers_of_latched tes _ hE.1]
  exact ⟨hE.1, hE.2, hrun, by rw [hrun]; exact hE.2⟩

/-- Witness for C2 at a concrete interleaving: a SIGINT followed by a
SIGTERM and a beforeExit runs the stop sequence exactly once. -/
theorem c2_exit_latch_single_fire_witness :
    (runExitTriggers ⟨⟨true, true⟩, false, 0⟩
      [(ExitTrigger.sigint, envOk), (ExitTrigger.sigterm, envOk),
       (ExitTrigger.beforeExit, envOk)]).stopSequences = 1 :=
  (c2_exit_latch_single_fire ⟨true, true⟩ (Or.inl rfl) ExitTrigger.sigint envOk
    [(ExitTrigger.sigterm, envOk), (ExitTrigger.beforeExit, envOk)]).2.2.2

-- One toggle preserves the trace invariant.
lemma toggleStep_preserves_inv (sm : Bool) (e : Env) (t : ToggleTrace)
    (h : traceInv t) : traceInv (toggleStep sm t e) := by
  obtain ⟨hfl, h1, h2, h3, h4⟩ := h
  rcases t with ⟨⟨cpu, heap⟩, cf, hf, cp, hp, se⟩
  rcases e with ⟨ts, cok, hok⟩
  simp only [traceInv] at *
  cases cpu <;> cases heap <;> cases cok <;> cases hok <;>
    simp_all [toggleStep, toggleProfiler, stopProfilerAndSave] <;> omega

-- One failure-free toggle preserves exact file/pair agreement.
lemma toggleStep_preserves_exact (sm : Bool) (e : Env) (t : ToggleTrace)
    (hfl : t.flags.cpu = t.flags.heap) (hx : traceExact t)
    (hok : e.cpuOk = true ∧ e.heapOk = true) : traceExact (toggleStep sm t e) := by
  obtain ⟨hx1, hx2⟩ := hx
  obtain ⟨hok1, hok2⟩ := hok
  rcases t with ⟨⟨cpu, heap⟩, cf, hf, cp, hp, se⟩
  rcases e with ⟨ts, cok, hok⟩
  simp only [traceExact] at *
  cases cpu <;> cases heap <;>
    simp_all [toggleStep, toggleProfiler, stopProfilerAndSave]

-- The trace invariant holds along every toggle sequence.
lemma runToggles_inv (sm : Bool) (es : List Env) (t : ToggleTrace)
    (h : traceInv t) : traceInv (runToggles sm t es) := by
  induction es generalizing t with
  | nil => exact h
  | cons e es ih => exact ih _ (toggleStep_preserves_inv sm e t h)

-- Exact agreement holds along every failure-free toggle sequence.
lemma runToggles_exact (sm : Bool) (es : List Env) (t : ToggleTrace)
    (h : traceInv t) (hx : traceExact t)
    (hok : ∀ e ∈ es, e.cpuOk = true ∧ e.heapOk = true) :
    traceExact (runToggles sm t es) := by
  induction es generalizing t with
  | nil => exact hx
  | cons e es ih =>
      exact ih (toggleStep sm t e)
        (toggleStep_preserves_inv sm e t h)
        (toggleStep_preserves_exact sm e t h.1 hx (hok e (by simp)))
        (fun e' he' => hok e' (by simp [he']))

/-- C4: over every finite sequence of `toggleProfiler` calls from the idle
state, the number of profile files written never exceeds the number of
completed start-then-stop pairs (per sub-profiler: at most one file per stop
event for each sub-profiler), and on failure-free runs the two quantities
are equal. -/
theorem c4_files_equal_pairs (sm : Bool) (es : List Env) :
    (runToggles sm initialTrace es).cpuFiles + (runToggles sm initialTrace es).heapFiles
      ≤ (runToggles sm initialTrace es).cpuPairs + (runToggles sm initialTrace es).heapPairs ∧
    (runToggles sm initialTrace es).cpuFiles ≤ (runToggles sm initialTrace es).stopEvents ∧
    (runToggles sm initialTrace es).heapFiles ≤ (runToggles sm initialTrace es).stopEvents ∧
    ((∀ e ∈ es, e.cpuOk = true ∧ e.heapOk = true) →
      (runToggles sm initialTrace es).cpuFiles + (runToggles sm initialTrace es).heapFiles
        = (runToggles sm initialTrace es).cpuPairs + (runToggles sm initialTrace es).heapPairs) := by
  have h0 : traceInv initialTrace := by simp [traceInv, initialTrace]
  have hinv := runToggles_inv sm es initialTrace h0
  obtain ⟨_, h1, h2, h3, h4⟩ := hinv
  refine ⟨by omega, by omega, by omega, ?_⟩
  intro hok
  have hx := runToggles_exact sm es initialTrace h0 (by simp [traceExact, initialTrace]) hok
  obtain ⟨hx1, hx2⟩ := hx
  omega

/-- Witness for C4 at a concrete failure-free start-stop-start-stop run. -/
theorem c4_files_equal_pairs_witness :
    (runToggles false initialTrace [envOk, envOk, envOk, envOk]).cpuFiles
        + (runToggles false initialTrace [envOk, envOk, envOk, envOk]).heapFiles
      = (runToggles false initialTrace [envOk, envOk, envOk, envOk]).cpuPairs
        + (runToggles false initialTrace [envOk, envOk, envOk, envOk]).heapPairs :=
  (c4_files_equal_pairs false [envOk, envOk, envOk, envOk]).2.2.2 (by decide)

/-- C6: `mappingInfo` first performs the default-bias lookup; when that
yields no source it retries the same generated position with the
`LEAST_UPPER_BOUND` bias and builds the result from that mapping when one
exists; when the file has no map entry, or both lookups yield no source, the
input location is returned unchanged; a direct hit is used as-is. The
embedding is total, so resolution never throws. -/
theorem c6_mappingInfo_fallback (pops : PathOps)
    (getMappingInfo : String → Option MapEntry) (loc : Loc) :
    (getMappingInfo (pops.normalize loc.file) = none →
      mappingInfo pops getMappingInfo loc = loc) ∧
    (∀ entry, getMappingInfo (pops.normalize loc.file) = some entry →
      ((entry.originalPositionFor loc.line (genColOf loc) Bias.greatestLowerBound).source = none →
        (entry.originalPositionFor loc.line (genColOf loc) Bias.leastUpperBound).source = none →
        mappingInfo pops getMappingInfo loc = loc) ∧
      (∀ src,
        (entry.originalPositionFor loc.line (genColOf loc) Bias.greatestLowerBound).source = none →
        (entry.originalPositionFor loc.line (genColOf loc) Bias.leastUpperBound).source = some src →
        (mappingInfo pops getMappingInfo loc).file = pops.resolve entry.mapFileDir src ∧
        (mappingInfo pops getMappingInfo loc).line
          = jsOrLine (entry.originalPositionFor loc.line (genColOf loc) Bias.leastUpperBound).line ∧
        (mappingInfo pops getMappingInfo loc).column
          = Option.map (fun c => c + 1)
              (entry.originalPositionFor loc.line (genColOf loc) Bias.leastUpperBound).column) ∧
      (∀ src,
        (entry.originalPositionFor loc.line (genColOf loc) Bias.greatestLowerBound).source = some src →
        (mappingInfo pops getMappingInfo loc).file = pops.resolve entry.mapFileDir src)) := by
  refine ⟨fun h => by simp [mappingInfo, h], fun entry hent => ⟨?_, ?_, ?_⟩⟩
  · intro h1 h2
    simp [mappingInfo, hent, h1, h2]
  · intro src h1 h2
    simp [mappingInfo, hent, h1, h2]
  · intro src h1
    simp [mappingInfo, hent, h1]

/-- Witness for C6 at a concrete entry whose direct lookup misses and whose
fallback lookup hits. -/
theorem c6_mappingInfo_fallback_witness :
    (mappingInfo pathOpsSample getInfoSample locSample).file
      = pathOpsSample.resolve (entrySample.mapFileDir) ("app.ts") :=
  (((c6_mappingInfo_fallback pathOpsSample getInfoSample locSample).2
      entrySample rfl).2.1 ("app.ts") rfl rfl).1

end Flame
